import Mathlib

/-!
Verification of the filtering / loading / classification core of the
ENG-vs-IND ball-by-ball dashboard (`app.py`).

The embedding is shallow: a pandas `DataFrame` whose schema is known
(the columns `filter_data` touches) is a `List Row`; a raw CSV frame with
a dynamic column set (as seen by `load_data`) is a list of named columns,
each a list of cells; a pandas cell is a `Val` (a number, a string, or
the missing marker `NaN`).
-/

namespace EngInd

/-- A pandas cell: an integer value, a string value, or missing (`NaN`). -/
inductive Val where
  | num (n : Int)
  | str (s : String)
  | na
deriving DecidableEq, Repr

/-- Python `str(val)` on a cell (only reached for non-missing cells in
`flag_wicket`; `str` of pandas `NaN` is `"nan"`). -/
def strOfVal : Val → String
  | .num n => toString n
  | .str s => s
  | .na => "nan"

/-- The deny-list of `app.py` line 54: dismissal codes treated as "no wicket". -/
def notOutValues : List String :=
  ["NotOut", "NotOut1stUmpire", "NotOut2ndUmpire", "NotOut3rdUmpire", "Null"]

/-- Embedding of `flag_wicket` (`app.py` lines 50-56): missing maps to 0,
a value whose string form is in the deny-list maps to 0, anything else to 1. -/
def flag_wicket (val : Val) : Int :=
  match val with
  | .na => 0
  | v => if strOfVal v ∈ notOutValues then 0 else 1

/-- One ball-by-ball record with the columns `filter_data` reads, plus the
remaining columns carried opaquely as name/cell pairs. -/
structure Row where
  inningNumber : Int
  battingPlayer : String
  bowlerPlayer : String
  overNumber : Int
  extra : List (String × Val)
deriving DecidableEq, Repr

/-- The innings step of `filter_data` (line 84): `df[df['inningNumber'].isin(innings)]`.
Applied unconditionally, so an empty `innings` list keeps no row. -/
def filterByInnings (innings : List Int) (df : List Row) : List Row :=
  df.filter (fun r => decide (r.inningNumber ∈ innings))

/-- The batting-player step of `filter_data` (lines 87-88): applied only when
the selection list is non-empty (Python truthiness of the list). -/
def filterByBatting (battingPlayers : List String) (df : List Row) : List Row :=
  if battingPlayers.isEmpty then df
  else df.filter (fun r => decide (r.battingPlayer ∈ battingPlayers))

/-- The bowler step of `filter_data` (lines 91-92): applied only when the
selection list is non-empty. -/
def filterByBowlers (bowlers : List String) (df : List Row) : List Row :=
  if bowlers.isEmpty then df
  else df.filter (fun r => decide (r.bowlerPlayer ∈ bowlers))

/-- The over-range step of `filter_data` (lines 95-96):
`(overNumber >= min_over) & (overNumber <= max_over)`, both bounds inclusive. -/
def filterByOverRange (minOver maxOver : Int) (df : List Row) : List Row :=
  df.filter (fun r => decide (minOver ≤ r.overNumber ∧ r.overNumber ≤ maxOver))

/-- Embedding of `filter_data` (`app.py` lines 63-98): innings filter, then
optional batting-player filter, then optional bowler filter, then over range. -/
def filter_data (df : List Row) (innings : List Int)
    (battingPlayers bowlers : List String) (overRange : Int × Int) : List Row :=
  let filtered := filterByInnings innings df
  let filtered := filterByBatting battingPlayers filtered
  let filtered := filterByBowlers bowlers filtered
  filterByOverRange overRange.1 overRange.2 filtered

/-- A raw CSV frame as `load_data` sees it: named columns of cells, in order. -/
abbrev RawFrame : Type := List (String × List Val)

/-- Column lookup, the embedding of `df['name']` / `'name' in df.columns`:
the first column with a matching name, if any. -/
def getCol (df : RawFrame) (name : String) : Option (List Val) :=
  (df.find? (fun c => c.1 == name)).map (fun c => c.2)

/-- Column assignment `df['name'] = cells`: replace the column when present,
append it at the end otherwise. -/
def setCol (df : RawFrame) (name : String) (cells : List Val) : RawFrame :=
  match df with
  | [] => [(name, cells)]
  | c :: rest =>
    if c.1 == name then (name, cells) :: rest
    else c :: setCol rest name cells

/-- Number of rows of the frame: the length of its first column (0 when the
frame has no columns). -/
def nrows (df : RawFrame) : Nat :=
  match df with
  | [] => 0
  | c :: _ => c.2.length

/-- Digit-by-digit accumulation of a decimal numeral; `none` as soon as a
non-digit character appears. -/
def digitsToNat (ds : List Char) : Option Nat :=
  ds.foldl (fun acc c =>
    match acc with
    | none => none
    | some n => if c.isDigit then some (10 * n + (c.toNat - 48)) else none)
    (some 0)

/-- A non-empty all-digit numeral, or `none`. -/
def parseNatDigits (ds : List Char) : Option Nat :=
  if ds.isEmpty then none else digitsToNat ds

/-- The integer reading of a string: an optional leading minus sign followed
by a non-empty run of decimal digits; anything else is non-numeric. -/
def parseIntLit (s : String) : Option Int :=
  match s.data with
  | '-' :: ds => (parseNatDigits ds).map (fun n => -(n : Int))
  | ds => (parseNatDigits ds).map (fun n => (n : Int))

/-- The numeric reading `pd.to_numeric(cell, errors='coerce')` gives of one
cell: a number stays, a string holding an integer literal parses, anything
else becomes `NaN` (`none`). -/
def coerceNum : Val → Option Int
  | .num n => some n
  | .str s => parseIntLit s
  | .na => none

/-- Columnwise `pd.to_numeric(col, errors='coerce')`. -/
def toNumericCoerce (cells : List Val) : List Val :=
  cells.map (fun v =>
    match coerceNum v with
    | some n => .num n
    | none => .na)

/-- Columnwise `.fillna(0)`. -/
def fillna0 (cells : List Val) : List Val :=
  cells.map (fun v =>
    match v with
    | .na => .num 0
    | v => v)

/-- Embedding of `load_data` (`app.py` lines 38-60), after `pd.read_csv`:
normalize `runsScored` (falling back to `runs`, then to a broadcast scalar 0,
per `df.get('runs', 0)`), then derive `is_wicket` from
`appealDismissalTypeId`; the subscript `df[dismissal_col]` raises `KeyError`
when that column is absent, embedded as `Except.error`. -/
def load_data (df : RawFrame) : Except String RawFrame :=
  let df1 : RawFrame :=
    match getCol df "runsScored" with
    | some c => setCol df "runsScored" (fillna0 (toNumericCoerce c))
    | none =>
      match getCol df "runs" with
      | some c => setCol df "runsScored" (fillna0 (toNumericCoerce c))
      | none => setCol df "runsScored" (List.replicate (nrows df) (.num 0))
  match getCol df1 "appealDismissalTypeId" with
  | some c => .ok (setCol df1 "is_wicket" (c.map (fun v => .num (flag_wicket v))))
  | none => .error "KeyError: appealDismissalTypeId"

/-- The session state the app threads through a `filter_data` call: the loaded
record set, cached once per session. -/
structure Session where
  df : List Row
deriving DecidableEq

/-- One `filter_data` request against the session: the state as the call
leaves it, paired with the derived view the call returns. The body only
builds boolean-mask selections of `s.df`; no pandas operation in
`filter_data` writes to its input. -/
def runFilterData (s : Session) (innings : List Int)
    (battingPlayers bowlers : List String) (overRange : Int × Int) :
    Session × List Row :=
  (s, filter_data s.df innings battingPlayers bowlers overRange)

/-- Modelled from the spec: the Aggregation Engine (spec section 4.2) has no
source under `src/` (only `app.py` is present, which lacks it), so its record
is just a grouping key and the runs scored on the ball. -/
structure AggRecord where
  key : String
  runs : Int
deriving DecidableEq, Repr

/-- Modelled from the spec: rounding to 2 decimal places. -/
def round2 (q : ℚ) : ℚ := (round (q * 100) : ℤ) / 100

/-- Modelled from the spec: strike rate of a group given its list of
per-ball runs — `total runs / balls faced × 100`, rounded to 2 decimals, and
the "no data" sentinel `none` when the group has no balls. -/
def strikeRate (runsList : List Int) : Option ℚ :=
  if runsList.length = 0 then none
  else some (round2 (100 * (runsList.sum : ℚ) / (runsList.length : ℚ)))

/-- Modelled from the spec: the distinct grouping-field values of a record
subset, in first-appearance order. -/
def groupKeys (rs : List AggRecord) : List String :=
  (rs.map (fun r => r.key)).dedup

/-- Modelled from the spec: the records of one group. -/
def groupRecords (rs : List AggRecord) (k : String) : List AggRecord :=
  rs.filter (fun r => r.key == k)

/-- Modelled from the spec: the Aggregation Engine's per-group output — for
each distinct key, total runs (sum), balls faced (count), and strike rate. -/
def aggregate (rs : List AggRecord) : List (String × Int × Nat × Option ℚ) :=
  (groupKeys rs).map (fun k =>
    let g := (groupRecords rs k).map (fun r => r.runs)
    (k, g.sum, g.length, strikeRate g))

/-! Helper lemmas shared by several claims. -/

theorem getCol_setCol_self (df : RawFrame) (n : String) (v : List Val) :
    getCol (setCol df n v) n = some v := by
  induction df with
  | nil => simp [setCol, getCol, List.find?]
  | cons col rest ih =>
    by_cases hc : (col.1 == n) = true
    · simp [setCol, hc, getCol, List.find?]
    · have hc' : (col.1 == n) = false := by simpa using hc
      simpa [setCol, hc', getCol, List.find?] using ih

theorem getCol_setCol_ne (df : RawFrame) (n m : String) (v : List Val)
    (h : (n == m) = false) : getCol (setCol df n v) m = getCol df m := by
  induction df with
  | nil => simp [setCol, getCol, List.find?, h]
  | cons col rest ih =>
    by_cases hc : (col.1 == n) = true
    · have hceq : col.1 = n := eq_of_beq hc
      simp [setCol, hc, getCol, List.find?, h, hceq]
    · have hc' : (col.1 == n) = false := by simpa using hc
      by_cases hm : (col.1 == m) = true
      · simp [setCol, hc', getCol, List.find?, hm]
      · have hm' : (col.1 == m) = false := by simpa using hm
        simpa [setCol, hc', getCol, List.find?, hm'] using ih

theorem filterByInnings_sublist (innings : List Int) (df : List Row) :
    (filterByInnings innings df).Sublist df :=
  List.filter_sublist df

theorem filterByBatting_sublist (battingPlayers : List String) (df : List Row) :
    (filterByBatting battingPlayers df).Sublist df := by
  unfold filterByBatting
  split
  · exact List.Sublist.refl df
  · exact List.filter_sublist df

theorem filterByBowlers_sublist (bowlers : List String) (df : List Row) :
    (filterByBowlers bowlers df).Sublist df := by
  unfold filterByBowlers
  split
  · exact List.Sublist.refl df
  · exact List.filter_sublist df

theorem filterByOverRange_sublist (lo hi : Int) (df : List Row) :
    (filterByOverRange lo hi df).Sublist df :=
  List.filter_sublist df

theorem filter_data_sublist (df : List Row) (innings : List Int)
    (battingPlayers bowlers : List String) (overRange : Int × Int) :
    (filter_data df innings battingPlayers bowlers overRange).Sublist df := by
  unfold filter_data
  exact ((filterByOverRange_sublist _ _ _).trans
    ((filterByBowlers_sublist _ _).trans
      ((filterByBatting_sublist _ _).trans (filterByInnings_sublist _ _))))

/-- A concrete ball-by-ball record used to instantiate universally
quantified theorems. -/
def sampleRow : Row := ⟨1, "A", "B", 5, []⟩

/-! Claims. -/

/-- C2: `flag_wicket` maps a missing dismissal value to 0, a non-missing
value whose string form is one of the five deny-listed codes to 0, and every
other non-missing value to 1. -/
theorem flag_wicket_classification (v : Val) :
    flag_wicket Val.na = 0 ∧
    (v ≠ Val.na → strOfVal v ∈ notOutValues → flag_wicket v = 0) ∧
    (v ≠ Val.na → strOfVal v ∉ notOutValues → flag_wicket v = 1) := by
  refine ⟨rfl, ?_, ?_⟩ <;> intro hv h <;> cases v <;> simp_all [flag_wicket]

/-- Witness for C2 at the concrete codes `"NotOut"` and `"Bowled"`. -/
theorem flag_wicket_classification_witness :
    flag_wicket (Val.str "NotOut") = 0 ∧ flag_wicket (Val.str "Bowled") = 1 :=
  ⟨(flag_wicket_classification (Val.str "NotOut")).2.1 (by decide) (by decide),
   (flag_wicket_classification (Val.str "Bowled")).2.2 (by decide) (by decide)⟩

/-- C9: the deny-list comparison is an exact string match, with no case
folding and no whitespace trimming: every string not literally one of the
five codes is classified as a wicket. -/
theorem flag_wicket_exact_match_only (s : String) (h : s ∉ notOutValues) :
    flag_wicket (Val.str s) = 1 := by
  simp [flag_wicket, strOfVal, h]

/-- Witness for C9 at the case variants `"notout"`, `"NOTOUT"` and the
padded form `" NotOut"`. -/
theorem flag_wicket_exact_match_only_witness :
    flag_wicket (Val.str "notout") = 1 ∧ flag_wicket (Val.str "NOTOUT") = 1 ∧
    flag_wicket (Val.str " NotOut") = 1 :=
  ⟨flag_wicket_exact_match_only "notout" (by decide),
   flag_wicket_exact_match_only "NOTOUT" (by decide),
   flag_wicket_exact_match_only " NotOut" (by decide)⟩

/-- C3: the batting-player criterion step and the over-range criterion step
of `filter_data` commute: filtering by player `P` then by the over range
`[lo, hi]` equals filtering in the opposite order. -/
theorem filter_batting_over_commute (df : List Row) (P : String) (lo hi : Int) :
    filterByOverRange lo hi (filterByBatting [P] df) =
      filterByBatting [P] (filterByOverRange lo hi df) := by
  simp only [filterByBatting, filterByOverRange, List.isEmpty_cons,
    Bool.false_eq_true, if_false]
  exact List.filter_comm _ _ _

/-- C4: the over-range criterion keeps exactly the rows whose over number
lies in the inclusive range `[lo, hi]`, and when `lo > hi` the whole
`filter_data` result is the empty list, not an error. -/
theorem filter_over_range_inclusive_and_empty (df : List Row)
    (innings : List Int) (battingPlayers bowlers : List String) (lo hi : Int) :
    (∀ r, r ∈ filterByOverRange lo hi df ↔
        r ∈ df ∧ lo ≤ r.overNumber ∧ r.overNumber ≤ hi) ∧
    (lo > hi → filter_data df innings battingPlayers bowlers (lo, hi) = []) := by
  constructor
  · intro r
    simp [filterByOverRange, List.mem_filter]
  · intro hgt
    unfold filter_data filterByOverRange
    rw [List.filter_eq_nil_iff]
    intro r _
    simp only [decide_eq_true_eq, not_and]
    intro h1 h2
    omega

/-- Witness for C4: the row with over number 5 is kept by the range
`[5, 5]`, and the range `[2, 1]` empties the result. -/
theorem filter_over_range_inclusive_and_empty_witness :
    (sampleRow ∈ filterByOverRange 5 5 [sampleRow] ↔
        sampleRow ∈ [sampleRow] ∧ (5 : Int) ≤ sampleRow.overNumber ∧
          sampleRow.overNumber ≤ 5) ∧
    filter_data [sampleRow] [1] [] [] (2, 1) = [] :=
  ⟨(filter_over_range_inclusive_and_empty [sampleRow] [1] [] [] 5 5).1 sampleRow,
   (filter_over_range_inclusive_and_empty [sampleRow] [1] [] [] 2 1).2 (by decide)⟩

/-- C1 counterexample: with every criterion empty (and an over range covering
the row), `filter_data` returns the empty list, not the full input — the
innings mask `.isin([])` holds of no row. -/
theorem filter_data_empty_innings_counterexample :
    filter_data [sampleRow] [] [] [] (0, 100) = [] ∧
    ([sampleRow] : List Row) ≠ [] := by
  constructor
  · rfl
  · simp

/-- C1 (amended): `filter_data` is the identity when the innings list covers
every row's inning number, the batting-player and bowler lists are empty, and
the over range covers every row's over number. -/
theorem filter_data_identity_on_covering_criteria (df : List Row)
    (innings : List Int) (lo hi : Int)
    (hinn : ∀ r ∈ df, r.inningNumber ∈ innings)
    (hover : ∀ r ∈ df, lo ≤ r.overNumber ∧ r.overNumber ≤ hi) :
    filter_data df innings [] [] (lo, hi) = df := by
  have h1 : filterByInnings innings df = df := by
    unfold filterByInnings
    exact List.filter_eq_self.mpr (fun r hr => decide_eq_true (hinn r hr))
  have h2 : filterByOverRange lo hi df = df := by
    unfold filterByOverRange
    exact List.filter_eq_self.mpr (fun r hr => decide_eq_true (hover r hr))
  simp [filter_data, filterByBatting, filterByBowlers, h1, h2]

/-- Witness for C1 (amended) on a one-row frame whose inning number is
listed and whose over number lies in the range. -/
theorem filter_data_identity_on_covering_criteria_witness :
    filter_data [sampleRow] [1] [] [] (0, 100) = [sampleRow] :=
  filter_data_identity_on_covering_criteria [sampleRow] [1] 0 100
    (by decide) (by decide)

/-- C10: `filter_data` only selects rows: its output is a sublist of its
input — every output row is an input row with identical column values, and
surviving rows keep their input order. -/
theorem filter_data_selects_rows (df : List Row) (innings : List Int)
    (battingPlayers bowlers : List String) (overRange : Int × Int) :
    (filter_data df innings battingPlayers bowlers overRange).Sublist df :=
  filter_data_sublist df innings battingPlayers bowlers overRange

/-- C8: a `filter_data` request never mutates the session's record set: the
state after the call is the state before it, and the derived view is a
sublist of the stored records (no record created, none rewritten). -/
theorem runFilterData_no_mutation (s : Session) (innings : List Int)
    (battingPlayers bowlers : List String) (overRange : Int × Int) :
    (runFilterData s innings battingPlayers bowlers overRange).1 = s ∧
    ((runFilterData s innings battingPlayers bowlers overRange).2).Sublist
      s.df :=
  ⟨rfl, filter_data_sublist s.df innings battingPlayers bowlers overRange⟩

/-- C6: a missing `appealDismissalTypeId` column makes `load_data` fail with
a clear error, while a missing `runsScored` column does not fail: it falls
back to the coerced `runs` column. -/
theorem load_data_missing_column (df : RawFrame) (c d : List Val) :
    (getCol df "appealDismissalTypeId" = none →
        load_data df = Except.error "KeyError: appealDismissalTypeId") ∧
    (getCol df "runsScored" = none → getCol df "runs" = some c →
      getCol df "appealDismissalTypeId" = some d →
      ∃ out, load_data df = Except.ok out ∧
        getCol out "runsScored" = some (fillna0 (toNumericCoerce c))) := by
  have hne : ("runsScored" == "appealDismissalTypeId") = false := by decide
  have hne2 : ("is_wicket" == "runsScored") = false := by decide
  constructor
  · intro h
    unfold load_data
    rcases hrs : getCol df "runsScored" with _ | c0
    · rcases hruns : getCol df "runs" with _ | c1
      · simp [getCol_setCol_ne _ _ _ _ hne, h]
      · simp [getCol_setCol_ne _ _ _ _ hne, h]
    · simp [getCol_setCol_ne _ _ _ _ hne, h]
  · intro hrs hruns hdis
    have hd1 : getCol (setCol df "runsScored" (fillna0 (toNumericCoerce c)))
        "appealDismissalTypeId" = some d := by
      rw [getCol_setCol_ne _ _ _ _ hne]; exact hdis
    refine ⟨setCol (setCol df "runsScored" (fillna0 (toNumericCoerce c)))
      "is_wicket" (d.map (fun v => Val.num (flag_wicket v))), ?_, ?_⟩
    · simp [load_data, hrs, hruns, hd1]
    · rw [getCol_setCol_ne _ _ _ _ hne2, getCol_setCol_self]

/-- Witness for C6: a frame without the dismissal column errors; a frame
without `runsScored` but with `runs` loads and uses the `runs` values. -/
theorem load_data_missing_column_witness :
    load_data [("runsScored", [Val.num 2])] =
      Except.error "KeyError: appealDismissalTypeId" ∧
    ∃ out, load_data [("runs", [Val.num 2]), ("appealDismissalTypeId",
        [Val.na])] = Except.ok out ∧
      getCol out "runsScored" = some (fillna0 (toNumericCoerce [Val.num 2])) :=
  ⟨(load_data_missing_column [("runsScored", [Val.num 2])] [] []).1 (by rfl),
   (load_data_missing_column [("runs", [Val.num 2]),
      ("appealDismissalTypeId", [Val.na])] [Val.num 2] [Val.na]).2
     (by rfl) (by rfl) (by rfl)⟩

/-- C7: a non-numeric `runsScored` cell never makes `load_data` fail; the
cell is coerced to `NaN` and then filled with 0, so the output's
`runsScored` column holds 0 at that row. -/
theorem load_data_nonnumeric_coerced (df : RawFrame) (c d : List Val)
    (i : Nat) (v : Val)
    (hrs : getCol df "runsScored" = some c)
    (hdis : getCol df "appealDismissalTypeId" = some d)
    (hcell : c.get? i = some v)
    (hnn : coerceNum v = none) :
    ∃ out, load_data df = Except.ok out ∧
      ∃ c2, getCol out "runsScored" = some c2 ∧ c2.get? i = some (Val.num 0) := by
  have hne : ("runsScored" == "appealDismissalTypeId") = false := by decide
  have hne2 : ("is_wicket" == "runsScored") = false := by decide
  have hd1 : getCol (setCol df "runsScored" (fillna0 (toNumericCoerce c)))
      "appealDismissalTypeId" = some d := by
    rw [getCol_setCol_ne _ _ _ _ hne]; exact hdis
  refine ⟨setCol (setCol df "runsScored" (fillna0 (toNumericCoerce c)))
    "is_wicket" (d.map (fun v => Val.num (flag_wicket v))), ?_,
    fillna0 (toNumericCoerce c), ?_, ?_⟩
  · simp [load_data, hrs, hd1]
  · rw [getCol_setCol_ne _ _ _ _ hne2, getCol_setCol_self]
  · simp only [fillna0, toNumericCoerce, List.map_map, List.get?_map, hcell,
      Option.map_some']
    simp [hnn]

/-- Witness for C7 on a one-row frame whose `runsScored` cell is the
non-numeric string `"abc"`. -/
theorem load_data_nonnumeric_coerced_witness :
    ∃ out, load_data [("runsScored", [Val.str "abc"]),
        ("appealDismissalTypeId", [Val.str "Bowled"])] = Except.ok out ∧
      ∃ c2, getCol out "runsScored" = some c2 ∧ c2.get? 0 = some (Val.num 0) :=
  load_data_nonnumeric_coerced
    [("runsScored", [Val.str "abc"]), ("appealDismissalTypeId",
      [Val.str "Bowled"])]
    [Val.str "abc"] [Val.str "Bowled"] 0 (Val.str "abc")
    (by rfl) (by rfl) (by rfl) (by rfl)

/-- C5: every group the aggregation engine emits carries the strike rate
`round(100 × total runs / balls faced, 2)` when its ball count is positive,
and the "no data" sentinel `none` when its ball count is zero. -/
theorem aggregate_strikeRate_spec (rs : List AggRecord) (k : String)
    (t : Int) (b : Nat) (sr : Option ℚ)
    (hmem : (k, t, b, sr) ∈ aggregate rs) :
    (0 < b → sr = some (round2 (100 * (t : ℚ) / (b : ℚ)))) ∧
    (b = 0 → sr = none) := by
  simp only [aggregate, List.mem_map] at hmem
  obtain ⟨k0, hk0, heq⟩ := hmem
  simp only [Prod.mk.injEq] at heq
  obtain ⟨hk, ht, hb, hsr⟩ := heq
  subst ht hb hsr
  constructor
  · intro hbpos
    unfold strikeRate
    rw [if_neg (by omega)]
  · intro hb0
    unfold strikeRate
    rw [if_pos hb0]

/-- Witness for C5 at the spec's own example: three balls for player `"X"`
with runs 4, 0, 6 give total 10, balls 3, strike rate 333.33. -/
theorem aggregate_strikeRate_spec_witness :
    (0 < 3 → some ((33333 : ℚ)/100) =
        some (round2 (100 * ((10 : Int) : ℚ) / ((3 : Nat) : ℚ)))) ∧
    ((3 : Nat) = 0 → some ((33333 : ℚ)/100) = none) :=
  aggregate_strikeRate_spec [⟨"X", 4⟩, ⟨"X", 0⟩, ⟨"X", 6⟩] "X" 10 3
    (some ((33333 : ℚ)/100))
    (by
      have h : strikeRate [4, 0, 6] = some ((33333 : ℚ)/100) := by
        unfold strikeRate round2
        norm_num [round_eq]
      have hagg : aggregate [⟨"X", 4⟩, ⟨"X", 0⟩, ⟨"X", 6⟩] =
          [("X", (10 : Int), (3 : Nat), strikeRate [4, 0, 6])] := rfl
      rw [hagg, h]
      exact List.mem_singleton.mpr rfl)

end EngInd
